import Mathlib

/-!
Verification of the demultiplexing-configuration and output-classification
logic of the trjread pipeline scripts (`scgpm_bcl2fastq/src/code.py` and
`bcl2fastq2_by_lane/src/bcl2fastq2_by_lane.py`).

The Python code is shallowly embedded: every fatal exit path of the scripts
(`logger.error` + `sys.exit()`, as well as uncaught Python exceptions such as
`TypeError` on subscripting an int, `IndexError`, `AttributeError` from
`logger.error(...).format(...)`, and `NameError`/`UnboundLocalError` from
reading a never-assigned local) is modelled as an `Except.error` carrying the
corresponding error kind.  File contents are modelled as lists of lines, the
parsed RunInfo.xml as a list of read elements in document order.
-/

/-- Error kinds of the embedded scripts.  `configError` stands for the
`logger.error` + `sys.exit()` pattern (the spec's ConfigurationError);
the other constructors stand for the uncaught Python exceptions the code
can raise on the corresponding paths. -/
inductive Err where
  | configError
  | typeError
  | indexError
  | nameError
  | attributeError
deriving DecidableEq

/-- A Python value that can appear in the `index_lengths_list` argument of
`_get_use_bases_mask`: `run` passes either the tuple `(0, 0)` (whose elements
are the ints `0`, `0`) or the list of `(i7_length, i5_length)` tuples produced
by `_count_index_lengths`.  `vnone` models Python `None`, which the code
filters out of the set comprehension. -/
inductive PyVal where
  | vnone
  | vint (n : Nat)
  | vpair (a b : Nat)
deriving DecidableEq

/-- Python `set(...)` turned back into a list: duplicates removed (keeping, as
Mathlib's dedup does, the last occurrence; the code only inspects the result
when it is a singleton, where the order is irrelevant). -/
def setDedup {α : Type} [DecidableEq α] : List α → List α
  | [] => []
  | a :: rest => if a ∈ rest then setDedup rest else a :: setDedup rest

/-- Helper for `pySplitChar`: accumulates the current (reversed) chunk. -/
def splitCharList (sep : Char) : List Char → List Char → List String
  | [], cur => [String.mk cur.reverse]
  | c :: rest, cur =>
    if c = sep then String.mk cur.reverse :: splitCharList sep rest []
    else splitCharList sep rest (c :: cur)

/-- Python `s.split(sep)` for a one-character separator (as used with `'-'`,
`'_'` and `'/'` in the scripts): empty pieces are kept, the result is never
empty. -/
def pySplitChar (sep : Char) (s : String) : List String :=
  splitCharList sep s.data []

/-- Helper for `pySplitWS`. -/
def splitWSAux : List Char → List Char → List String
  | [], cur => if cur.isEmpty then [] else [String.mk cur.reverse]
  | c :: rest, cur =>
    if c.isWhitespace then
      if cur.isEmpty then splitWSAux rest []
      else String.mk cur.reverse :: splitWSAux rest []
    else splitWSAux rest (c :: cur)

/-- Python `line.split()` (no argument): split on runs of whitespace,
dropping empty tokens. -/
def pySplitWS (s : String) : List String :=
  splitWSAux s.data []

/-- Python `s.upper()` on the ASCII barcode strings of the scripts. -/
def pyUpper (s : String) : String :=
  String.mk (s.data.map Char.toUpper)

/-- Python `s[:n]`. -/
def strTake (s : String) (n : Nat) : String :=
  String.mk (s.data.take n)

/-- Python `sep.join(parts)`. -/
def joinWith (sep : String) : List String → String
  | [] => ""
  | [x] => x
  | x :: y :: rest => x ++ sep ++ joinWith sep (y :: rest)

/-- Embeds `truncate_flowcell_id` (scgpm_bcl2fastq code.py, lines 151-173):
split the flowcell id on `-`; two segments: first 5 characters of the second;
one segment: first 5 characters of it; any other count leaves the local
`trunc_flowcell_id` unassigned, so the `return` raises `UnboundLocalError`
(modelled as `Err.nameError`). -/
def truncate_flowcell_id (flowcell_id : String) : Except Err String :=
  let elements := pySplitChar '-' flowcell_id
  if elements.length = 2 then Except.ok (strTake (elements.getD 1 "") 5)
  else if elements.length = 1 then Except.ok (strTake (elements.headD "") 5)
  else Except.error Err.nameError

/-- One `<Read .../>` element of RunInfo.xml as the scripts read it:
`int(Number)`, `int(NumCycles)`, and the raw `IsIndexedRead` attribute string
(compared case-sensitively against `'Y'` and `'N'`; any other value makes the
read element contribute nothing to the mask). -/
structure ReadElement where
  number : Int
  numCycles : Nat
  isIndexedRead : String
deriving DecidableEq

/-- Python subscripting `index_lengths[i]` followed by `int(...)`, as in
`int(index_lengths[number-2])`: ints are not subscriptable (`TypeError`);
a pair supports indices `0`, `1` and Python's negative indices `-1`, `-2`;
anything else raises `IndexError`. -/
def pyIndex (v : PyVal) (i : Int) : Except Err Nat :=
  match v with
  | PyVal.vnone => Except.error Err.typeError
  | PyVal.vint _ => Except.error Err.typeError
  | PyVal.vpair a b =>
    let j := if i < 0 then i + 2 else i
    if j = 0 then Except.ok a
    else if j = 1 then Except.ok b
    else Except.error Err.indexError

/-- Embeds the head of `_get_use_bases_mask` (both variants, identical code):
the set comprehension dropping `None`s, `list(set(...))`, and the
`len(unique_index_lengths) != 1` check that exits on inconsistent index
lengths; on success the unique element becomes `index_lengths`. -/
def uniqueIndexLengths (index_lengths_list : List PyVal) : Except Err PyVal :=
  let filtered := index_lengths_list.filter (fun v => v ≠ PyVal.vnone)
  match setDedup filtered with
  | [v] => Except.ok v
  | _ => Except.error Err.configError

/-- Python dict assignment `d[k] = v` on an association list: replace the
value if the key is present, otherwise append. -/
def dictInsert (d : List (Int × String)) (k : Int) (v : String) :
    List (Int × String) :=
  if d.any (fun p => p.1 == k) then
    d.map (fun p => if p.1 == k then (k, v) else p)
  else d ++ [(k, v)]

/-- Insertion step for `sortByKey`. -/
def insertSorted (p : Int × String) : List (Int × String) → List (Int × String)
  | [] => [p]
  | q :: rest => if p.1 ≤ q.1 then p :: q :: rest else q :: insertSorted p rest

/-- Python `sorted(mask_elements.items())` (keys are distinct, so ordering by
key alone matches tuple ordering). -/
def sortByKey (l : List (Int × String)) : List (Int × String) :=
  l.foldr insertSorted []

/-- Embeds the per-indexed-read token construction of
`GetUseBasesMaskJob._get_use_bases_mask` in scgpm_bcl2fastq code.py
(lines 429-444): `index_mask` is `I<L>` when the index length is positive and
empty otherwise; a positive remainder appends `n<remainder>`, a negative one
exits fatally, a zero remainder appends nothing. -/
def scgpm_indexed_mask (read_length index_length : Nat) : Except Err String :=
  let index_mask := if index_length > 0 then "I" ++ toString index_length else ""
  if read_length > index_length then
    Except.ok (index_mask ++ "n" ++ toString (read_length - index_length))
  else if read_length < index_length then Except.error Err.configError
  else Except.ok index_mask

/-- Embeds the per-indexed-read token construction of
`GetUseBasesMaskJob.get_use_bases_mask` in bcl2fastq2_by_lane.py
(lines 408-421): identical to the scgpm variant except that `index_mask` is
`I<L>` unconditionally, even when the index length is 0. -/
def bylane_indexed_mask (read_length index_length : Nat) : Except Err String :=
  let index_mask := "I" ++ toString index_length
  if read_length > index_length then
    Except.ok (index_mask ++ "n" ++ toString (read_length - index_length))
  else if read_length < index_length then Except.error Err.configError
  else Except.ok index_mask

/-- The `for read_element in tree.findall(".//Read")` loop of the scgpm
variant, filling the `mask_elements` dict. -/
def scgpm_mask_walk (v : PyVal) :
    List ReadElement → List (Int × String) → Except Err (List (Int × String))
  | [], d => Except.ok d
  | r :: rest, d =>
    if r.isIndexedRead = "Y" then
      match pyIndex v (r.number - 2) with
      | Except.error e => Except.error e
      | Except.ok index_length =>
        match scgpm_indexed_mask r.numCycles index_length with
        | Except.error e => Except.error e
        | Except.ok tok => scgpm_mask_walk v rest (dictInsert d r.number tok)
    else if r.isIndexedRead = "N" then
      scgpm_mask_walk v rest (dictInsert d r.number ("y" ++ toString r.numCycles))
    else scgpm_mask_walk v rest d

/-- The same read-element loop for the bcl2fastq2_by_lane variant. -/
def bylane_mask_walk (v : PyVal) :
    List ReadElement → List (Int × String) → Except Err (List (Int × String))
  | [], d => Except.ok d
  | r :: rest, d =>
    if r.isIndexedRead = "Y" then
      match pyIndex v (r.number - 2) with
      | Except.error e => Except.error e
      | Except.ok index_length =>
        match bylane_indexed_mask r.numCycles index_length with
        | Except.error e => Except.error e
        | Except.ok tok => bylane_mask_walk v rest (dictInsert d r.number tok)
    else if r.isIndexedRead = "N" then
      bylane_mask_walk v rest (dictInsert d r.number ("y" ++ toString r.numCycles))
    else bylane_mask_walk v rest d

/-- Embeds `GetUseBasesMaskJob._get_use_bases_mask` of scgpm_bcl2fastq
code.py (lines 393-451), with the parsed RunInfo.xml read elements passed as
a list: uniqueness check on the index lengths, walk over the reads, then
`','.join` of the mask tokens sorted by read number. -/
def scgpm_get_use_bases_mask (reads : List ReadElement)
    (index_lengths_list : List PyVal) : Except Err String :=
  match uniqueIndexLengths index_lengths_list with
  | Except.error e => Except.error e
  | Except.ok v =>
    match scgpm_mask_walk v reads [] with
    | Except.error e => Except.error e
    | Except.ok d =>
      Except.ok (joinWith "," ((sortByKey d).map (fun p => p.2)))

/-- Embeds `GetUseBasesMaskJob.get_use_bases_mask` of bcl2fastq2_by_lane.py
(lines 381-428). -/
def bylane_get_use_bases_mask (reads : List ReadElement)
    (index_lengths_list : List PyVal) : Except Err String :=
  match uniqueIndexLengths index_lengths_list with
  | Except.error e => Except.error e
  | Except.ok v =>
    match bylane_mask_walk v reads [] with
    | Except.error e => Except.error e
    | Except.ok d =>
      Except.ok (joinWith "," ((sortByKey d).map (fun p => p.2)))

/-- Loop body of `_count_index_lengths` applied to the barcodes in pop order
(the recursion pops from the end of the list, so the traversal processes the
reversed list): split the popped barcode on `-`; two segments give both
lengths, more than two hits `logger.error('...').format(barcode)`, which
raises `AttributeError` on `None` before the `sys.exit()` is reached;
otherwise the i5 length is 0.  Each pair is appended to the accumulator. -/
def count_pop_loop : List String → List (Nat × Nat) → Except Err (List (Nat × Nat))
  | [], acc => Except.ok acc
  | barcode :: rest, acc =>
    let elements := pySplitChar '-' barcode
    let i7_length := (elements.headD "").length
    if elements.length = 2 then
      count_pop_loop rest (acc ++ [(i7_length, (elements.getD 1 "").length)])
    else if elements.length > 2 then Except.error Err.attributeError
    else count_pop_loop rest (acc ++ [(i7_length, 0)])

/-- Embeds `GetUseBasesMaskJob._count_index_lengths` (scgpm_bcl2fastq code.py
lines 453-483; the bcl2fastq2_by_lane `count_index_lengths` is identical):
the destructive `barcodes.pop()` recursion is modelled by traversing the
reversed list, and the returned pair exposes the final state of the mutated
input list (empty when every barcode was popped) next to the accumulated
index-length pairs. -/
def count_index_lengths (barcodes : List String) (acc : List (Nat × Nat)) :
    Except Err (List String × List (Nat × Nat)) :=
  match count_pop_loop barcodes.reverse acc with
  | Except.ok pairs => Except.ok ([], pairs)
  | Except.error e => Except.error e

/-- Embeds `GetUseBasesMaskJob.run` of scgpm_bcl2fastq code.py
(lines 485-505): an empty barcode list makes `index_lengths` the tuple
`(0, 0)` — iterated by `_get_use_bases_mask` as the two ints `0`, `0` —
while a non-empty list goes through `_count_index_lengths`, producing a list
of pairs. -/
def scgpm_GetUseBasesMask_run (barcodes_list : List String)
    (reads : List ReadElement) : Except Err String :=
  if barcodes_list.length = 0 then
    scgpm_get_use_bases_mask reads [PyVal.vint 0, PyVal.vint 0]
  else
    match count_index_lengths barcodes_list [] with
    | Except.error e => Except.error e
    | Except.ok (_, pairs) =>
      scgpm_get_use_bases_mask reads (pairs.map (fun p => PyVal.vpair p.1 p.2))

/-- The `(i7_length, i5_length)` pair `_count_index_lengths` computes for one
well-formed (at most two `-`-segments) barcode. -/
def pairOf (barcode : String) : Nat × Nat :=
  let elements := pySplitChar '-' barcode
  ((elements.headD "").length,
   if elements.length = 2 then (elements.getD 1 "").length else 0)

/-- The spec's `IndexLengths` operation as the code realises it: the
`_count_index_lengths` traversal followed by the uniqueness check at the head
of `_get_use_bases_mask` (the two pieces `run` composes before the mask walk
uses the lengths). -/
def IndexLengths (barcodes : List String) : Except Err PyVal :=
  match count_index_lengths barcodes [] with
  | Except.error e => Except.error e
  | Except.ok (_, pairs) =>
    uniqueIndexLengths (pairs.map (fun p => PyVal.vpair p.1 p.2))

/-- The state of a Python string local of `create_sample_sheet` across loop
iterations: never assigned yet (`unbound` — reading it raises `NameError`),
assigned `None`, or assigned a string. -/
inductive PyStr where
  | unbound
  | pynone
  | str (s : String)
deriving DecidableEq

/-- The mutable state of the `create_sample_sheet` loop: the lines written so
far to the sheet file, the `barcode_sample_dict`, and the two locals
`sample_id` and `i5` that persist (possibly stale) across iterations. -/
structure SheetState where
  rows : List String
  dict : List (String × Option String)
  sample_id : PyStr
  i5 : PyStr
deriving DecidableEq

/-- Python dict assignment on `barcode_sample_dict`: replace the value if the
key is present, otherwise append. -/
def dictUpsert (d : List (String × Option String)) (k : String)
    (v : Option String) : List (String × Option String) :=
  if d.any (fun p => p.1 == k) then
    d.map (fun p => if p.1 == k then (k, v) else p)
  else d ++ [(k, v)]

/-- Embeds one iteration of the barcode-file loop of
`Bcl2fastqJob.create_sample_sheet` (scgpm_bcl2fastq code.py lines 311-346):
whitespace-tokenize the line (an all-whitespace line makes `elements[0]`
raise `IndexError`); uppercase the barcode and split it on `-`; two segments
assign `i5`, more than two only log — leaving `i5` with its previous
(possibly unbound) value — and one segment assigns `None`; one or two line
tokens assign `sample_id` and the dict entry, any other count leaves them
stale; finally `if i5:` (Python truthiness — `NameError` when unbound, empty
string and `None` falsy) picks between the `{},{},{},{}` row and the
`{},{},{},,` row, both formatting `sample_id` (`NameError` when unbound). -/
def sheetLine (lane_index : Nat) (st : SheetState) (line : String) :
    Except Err SheetState :=
  let elements := pySplitWS line
  match elements with
  | [] => Except.error Err.indexError
  | e0 :: _ =>
    let barcode := pyUpper e0
    let indexes := pySplitChar '-' barcode
    let i7 := indexes.headD ""
    let i5 : PyStr :=
      if indexes.length = 2 then PyStr.str (indexes.getD 1 "")
      else if indexes.length > 2 then st.i5
      else PyStr.pynone
    let sd : PyStr × List (String × Option String) :=
      if elements.length = 2 then
        (PyStr.str (elements.getD 1 ""),
         dictUpsert st.dict barcode (some (elements.getD 1 "")))
      else if elements.length = 1 then
        (PyStr.str barcode, dictUpsert st.dict barcode none)
      else (st.sample_id, st.dict)
    match i5 with
    | PyStr.unbound => Except.error Err.nameError
    | PyStr.pynone =>
      match sd.1 with
      | PyStr.str sid =>
        Except.ok { rows := st.rows ++
                      [toString lane_index ++ "," ++ sid ++ "," ++ i7 ++ ",,"],
                    dict := sd.2, sample_id := sd.1, i5 := i5 }
      | _ => Except.error Err.nameError
    | PyStr.str s =>
      if s = "" then
        match sd.1 with
        | PyStr.str sid =>
          Except.ok { rows := st.rows ++
                        [toString lane_index ++ "," ++ sid ++ "," ++ i7 ++ ",,"],
                      dict := sd.2, sample_id := sd.1, i5 := i5 }
        | _ => Except.error Err.nameError
      else
        match sd.1 with
        | PyStr.str sid =>
          Except.ok { rows := st.rows ++
                        [toString lane_index ++ "," ++ sid ++ "," ++ i7 ++ "," ++ s],
                      dict := sd.2, sample_id := sd.1, i5 := i5 }
        | _ => Except.error Err.nameError

/-- The barcode-file loop of `create_sample_sheet`. -/
def sheetFold (lane_index : Nat) : List String → SheetState → Except Err SheetState
  | [], st => Except.ok st
  | l :: rest, st =>
    match sheetLine lane_index st l with
    | Except.error e => Except.error e
    | Except.ok st2 => sheetFold lane_index rest st2

/-- Embeds `Bcl2fastqJob.create_sample_sheet` (scgpm_bcl2fastq code.py lines
281-349), with the barcode file given as its list of lines and the sheet file
returned as its list of lines: the two fixed header lines followed by the
rows the loop writes, paired with `barcode_sample_dict`. -/
def create_sample_sheet (lane_index : Nat) (lines : List String) :
    Except Err (List String × List (String × Option String)) :=
  match sheetFold lane_index lines
      { rows := ["[Data]", "Lane,Sample_ID,index,index2"], dict := [],
        sample_id := PyStr.unbound, i5 := PyStr.unbound } with
  | Except.error e => Except.error e
  | Except.ok st => Except.ok (st.rows, st.dict)

/-- Embeds `re.match(r'R(\d)', read)`: the read segment must start with `R`
followed by an ASCII digit; the captured digit is returned. -/
def readIndexMatch (read : String) : Option Char :=
  match read.data with
  | 'R' :: d :: _ => if d.isDigit then some d else none
  | _ => none

/-- `os.path.basename` followed by the `_`-split of the fastq filename, as at
the head of `_get_scgpm_fastq_name`. -/
def elsOf (fastq_path : String) : List String :=
  pySplitChar '_' ((pySplitChar '/' fastq_path).getLastD "")

/-- The read segment `_get_scgpm_fastq_name` selects: element 4 of a
6-element filename, element 3 of a 5-element one. -/
def readSegOf (elements : List String) : String :=
  if elements.length = 6 then elements.getD 4 "" else elements.getD 3 ""

/-- Embeds `Bcl2fastqFileUploader._get_scgpm_fastq_name` (scgpm_bcl2fastq
code.py lines 674-721).  The first component collects the diagnostics the
code emits (`logger.error` / `print`).  A filename with fewer than 5 or more
than 6 `_`-segments exits fatally; 6 segments join the first two segments
with `-` as a dual barcode, 5 segments take the first segment alone.  When
the read segment does not match `R<digit>` the code prints a diagnostic but
`read_index` is never assigned, so formatting the SCGPM name raises
`UnboundLocalError` (`Err.nameError`); on a match the name
`SCGPM_<library>_<trunc-flowcell>_L<lane>_<barcode>_R<digit>.fastq.gz` is
returned together with the barcode and the read-index digit. -/
def get_scgpm_fastq_name (fastq_path flowcell_id library_name : String)
    (lane_index : Nat) :
    List String × Except Err (String × String × String) :=
  let fastq_filename := (pySplitChar '/' fastq_path).getLastD ""
  let elements := elsOf fastq_path
  if elements.length < 5 ∨ elements.length > 6 then
    (["Fastq filename has unusual number of elements: " ++ fastq_filename],
     Except.error Err.configError)
  else
    let barcode :=
      if elements.length = 6 then
        elements.headD "" ++ "-" ++ elements.getD 1 ""
      else elements.headD ""
    match readIndexMatch (readSegOf elements) with
    | none =>
      (["Could not determine read index: " ++ readSegOf elements],
       Except.error Err.nameError)
    | some d =>
      match truncate_flowcell_id flowcell_id with
      | Except.error e => ([], Except.error e)
      | Except.ok trunc =>
        ([], Except.ok
          ("SCGPM_" ++ library_name ++ "_" ++ trunc ++ "_L" ++
             toString lane_index ++ "_" ++ barcode ++ "_R" ++ String.mk [d] ++
             ".fastq.gz",
           barcode, String.mk [d]))

/-- `t` occurs as a contiguous substring of `s`. -/
def strContains (s t : String) : Prop :=
  ∃ a b, s = a ++ t ++ b

/-- A barcode-file line on the code's intended path: one or two whitespace
tokens, and a barcode of at most two `-`-segments. -/
def wfLineB (line : String) : Bool :=
  let elements := pySplitWS line
  (elements.length == 1 || elements.length == 2) &&
  decide ((pySplitChar '-' (pyUpper (elements.headD ""))).length ≤ 2)

/-- The sheet row `create_sample_sheet` writes for one well-formed line:
a present, non-empty i5 gives the 4-field row, everything else the row with
an empty i5 field and a trailing extra comma. -/
def rowOf (lane_index : Nat) (line : String) : String :=
  let elements := pySplitWS line
  let barcode := pyUpper (elements.headD "")
  let indexes := pySplitChar '-' barcode
  let i7 := indexes.headD ""
  let sid := if elements.length = 2 then elements.getD 1 "" else barcode
  if indexes.length = 2 then
    let s := indexes.getD 1 ""
    if s = "" then toString lane_index ++ "," ++ sid ++ "," ++ i7 ++ ",,"
    else toString lane_index ++ "," ++ sid ++ "," ++ i7 ++ "," ++ s
  else toString lane_index ++ "," ++ sid ++ "," ++ i7 ++ ",,"

/-- Every indexed read of the run geometry receives a positive index length
from the resolved index-length value (vacuously true when resolution or
subscripting fails). -/
def allIndexLengthsPositive (reads : List ReadElement)
    (index_lengths_list : List PyVal) : Bool :=
  match uniqueIndexLengths index_lengths_list with
  | Except.error _ => true
  | Except.ok v =>
    reads.all (fun r =>
      if r.isIndexedRead = "Y" then
        match pyIndex v (r.number - 2) with
        | Except.ok l => decide (0 < l)
        | Except.error _ => true
      else true)

/-! ## Helper lemmas -/

theorem splitCharList_ne_nil (sep : Char) (l cur : List Char) :
    splitCharList sep l cur ≠ [] := by
  induction l generalizing cur with
  | nil => simp [splitCharList]
  | cons c rest ih =>
    by_cases h : c = sep
    · simp [splitCharList, h]
    · simpa [splitCharList, h] using ih (c :: cur)

theorem pySplitChar_ne_nil (sep : Char) (s : String) : pySplitChar sep s ≠ [] :=
  splitCharList_ne_nil sep s.data []

theorem setDedup_mem {α : Type} [DecidableEq α] {l : List α} {x : α} :
    x ∈ setDedup l ↔ x ∈ l := by
  induction l with
  | nil => simp [setDedup]
  | cons a as ih =>
    by_cases hm : a ∈ as
    · simp only [setDedup, if_pos hm, ih, List.mem_cons]
      exact ⟨Or.inr, fun h => h.elim (fun he => he ▸ hm) id⟩
    · simp [setDedup, hm, ih]

theorem setDedup_all_eq {α : Type} [DecidableEq α] (l : List α) (a : α)
    (h0 : l ≠ []) (h : ∀ x ∈ l, x = a) : setDedup l = [a] := by
  induction l with
  | nil => exact absurd rfl h0
  | cons x xs ih =>
    have hx : x = a := h x (List.mem_cons_self x xs)
    subst hx
    cases xs with
    | nil => simp [setDedup]
    | cons y ys =>
      have hy : y = x := h y (by simp)
      have hmem : x ∈ y :: ys := by rw [hy]; exact List.mem_cons_self x ys
      rw [setDedup, if_pos hmem]
      exact ih (by simp) (fun z hz => h z (List.mem_cons_of_mem x hz))

theorem count_pop_loop_ok (l : List String) (acc : List (Nat × Nat))
    (h : ∀ b ∈ l, (pySplitChar '-' b).length ≤ 2) :
    count_pop_loop l acc = Except.ok (acc ++ l.map pairOf) := by
  induction l generalizing acc with
  | nil => simp [count_pop_loop]
  | cons b rest ih =>
    have hb : (pySplitChar '-' b).length ≤ 2 := h b (List.mem_cons_self b rest)
    have hr : ∀ x ∈ rest, (pySplitChar '-' x).length ≤ 2 :=
      fun x hx => h x (List.mem_cons_of_mem b hx)
    by_cases h2 : (pySplitChar '-' b).length = 2
    · simp [count_pop_loop, h2, ih _ hr, pairOf]
    · have hgt : ¬(pySplitChar '-' b).length > 2 := by omega
      simp [count_pop_loop, h2, hgt, ih _ hr, pairOf]

theorem count_index_lengths_ok (bs : List String) (acc : List (Nat × Nat))
    (h : ∀ b ∈ bs, (pySplitChar '-' b).length ≤ 2) :
    count_index_lengths bs acc = Except.ok ([], acc ++ bs.reverse.map pairOf) := by
  have h2 : ∀ b ∈ bs.reverse, (pySplitChar '-' b).length ≤ 2 :=
    fun b hb => h b (List.mem_reverse.mp hb)
  simp [count_index_lengths, count_pop_loop_ok bs.reverse acc h2]

theorem uniqueIndexLengths_eq (lst : List PyVal) :
    uniqueIndexLengths lst =
      match setDedup (lst.filter (fun v => v ≠ PyVal.vnone)) with
      | [v] => Except.ok v
      | _ => Except.error Err.configError := rfl

/-! ## Claim theorems -/

/-- C9: for every flowcell id, `truncate_flowcell_id` returns the first 5
characters of the second `-`-segment when there are exactly two segments, the
first 5 characters of the only segment when there is exactly one, and fails
(the unassigned local makes the return raise, so no mis-truncated value is
ever produced) for any other segment count. -/
theorem truncate_flowcell_id_spec (flowcell_id : String) :
    ((pySplitChar '-' flowcell_id).length = 2 →
      truncate_flowcell_id flowcell_id =
        Except.ok (strTake ((pySplitChar '-' flowcell_id).getD 1 "") 5)) ∧
    ((pySplitChar '-' flowcell_id).length = 1 →
      truncate_flowcell_id flowcell_id =
        Except.ok (strTake ((pySplitChar '-' flowcell_id).headD "") 5)) ∧
    ((pySplitChar '-' flowcell_id).length ≠ 1 ∧
        (pySplitChar '-' flowcell_id).length ≠ 2 →
      truncate_flowcell_id flowcell_id = Except.error Err.nameError) := by
  refine ⟨fun h2 => ?_, fun h1 => ?_, fun h => ?_⟩
  · simp [truncate_flowcell_id, h2]
  · simp [truncate_flowcell_id, h1]
  · simp [truncate_flowcell_id, h.1, h.2]

/-- Witness for C9 at the spec's two examples plus a three-segment id. -/
theorem truncate_flowcell_id_spec_witness :
    truncate_flowcell_id "HFNKGBBXX" = Except.ok "HFNKG" ∧
    truncate_flowcell_id "000000000-AMG8G" = Except.ok "AMG8G" ∧
    truncate_flowcell_id "A-B-C" = Except.error Err.nameError := by
  refine ⟨?_, ?_, ?_⟩
  · exact (truncate_flowcell_id_spec "HFNKGBBXX").2.1 (by decide)
  · exact (truncate_flowcell_id_spec "000000000-AMG8G").1 (by decide)
  · exact (truncate_flowcell_id_spec "A-B-C").2.2 (by decide)

/-- C5: classifying `TCTCGCGC_TCAGAGCC_S47_L001_R2_001.fastq.gz` with
flowcell `HFNKGBBXX`, library `MyLib`, lane 1 yields barcode
`TCTCGCGC-TCAGAGCC` (segments 0 and 1 joined by `-`), read index `2` (from
segment 4), and a standardized name containing `MyLib`, `HFNKG`, `L1`, the
barcode, and `R2`. -/
theorem classify_dual_barcode_example :
    get_scgpm_fastq_name "TCTCGCGC_TCAGAGCC_S47_L001_R2_001.fastq.gz"
        "HFNKGBBXX" "MyLib" 1 =
      ([], Except.ok ("SCGPM_MyLib_HFNKG_L1_TCTCGCGC-TCAGAGCC_R2.fastq.gz",
                      "TCTCGCGC-TCAGAGCC", "2")) ∧
    strContains "SCGPM_MyLib_HFNKG_L1_TCTCGCGC-TCAGAGCC_R2.fastq.gz" "MyLib" ∧
    strContains "SCGPM_MyLib_HFNKG_L1_TCTCGCGC-TCAGAGCC_R2.fastq.gz" "HFNKG" ∧
    strContains "SCGPM_MyLib_HFNKG_L1_TCTCGCGC-TCAGAGCC_R2.fastq.gz" "L1" ∧
    strContains "SCGPM_MyLib_HFNKG_L1_TCTCGCGC-TCAGAGCC_R2.fastq.gz"
      "TCTCGCGC-TCAGAGCC" ∧
    strContains "SCGPM_MyLib_HFNKG_L1_TCTCGCGC-TCAGAGCC_R2.fastq.gz" "R2" := by
  refine ⟨rfl,
    ⟨"SCGPM_", "_HFNKG_L1_TCTCGCGC-TCAGAGCC_R2.fastq.gz", by decide⟩,
    ⟨"SCGPM_MyLib_", "_L1_TCTCGCGC-TCAGAGCC_R2.fastq.gz", by decide⟩,
    ⟨"SCGPM_MyLib_HFNKG_", "_TCTCGCGC-TCAGAGCC_R2.fastq.gz", by decide⟩,
    ⟨"SCGPM_MyLib_HFNKG_L1_", "_R2.fastq.gz", by decide⟩,
    ⟨"SCGPM_MyLib_HFNKG_L1_TCTCGCGC-TCAGAGCC_", ".fastq.gz", by decide⟩⟩

/-- C2: deriving the bases mask from an empty barcode list crashes on any
geometry with an indexed read — `run` passes the tuple `(0, 0)`, the set
comprehension collapses it to the single int `0`, and `index_lengths[number-2]`
then raises `TypeError` — instead of succeeding with index lengths (0, 0) as
the spec intends (the expected mask here would have been `y151,n8`). -/
theorem empty_barcodes_mask_crashes :
    scgpm_GetUseBasesMask_run [] [⟨1, 151, "N"⟩, ⟨2, 8, "Y"⟩] =
      Except.error Err.typeError := rfl

/-- C7: a barcode token with more than one `-` separator does not abort
`create_sample_sheet`: the error is merely logged and a sheet row is still
written for that barcode, reusing the previous line's stale `i5` value
(`1,SampleB,A,CCCC`); and `_count_index_lengths` aborts on such a token via
`AttributeError` (`logger.error(...).format(...)` on `None`), not via the
intended `ConfigurationError` exit. -/
theorem triple_index_barcode_row_emitted :
    create_sample_sheet 1 ["AAAA-CCCC SampleA", "A-B-C SampleB"] =
      Except.ok (["[Data]", "Lane,Sample_ID,index,index2",
                  "1,SampleA,AAAA,CCCC", "1,SampleB,A,CCCC"],
                 [("AAAA-CCCC", some "SampleA"), ("A-B-C", some "SampleB")]) ∧
    count_index_lengths ["A-B-C"] [] = Except.error Err.attributeError :=
  ⟨rfl, rfl⟩

/-- Counterexample to C1 as stated: an indexed read with cycle count 8 and
assigned index length 0 (reachable, e.g., from single-index barcodes on a
dual-index geometry) emits the token `n8`, not the `I<L>n<C-L>` form `I0n8`
the claim requires for every `C > L`. -/
theorem scgpm_indexed_mask_zero_counterexample :
    scgpm_get_use_bases_mask [⟨1, 151, "N"⟩, ⟨2, 8, "Y"⟩, ⟨3, 8, "Y"⟩]
        [PyVal.vpair 4 0] = Except.ok "y151,I4n4,n8" ∧
    scgpm_indexed_mask 8 0 = Except.ok "n8" ∧
    ¬ scgpm_indexed_mask 8 0 =
        Except.ok ("I" ++ toString (0 : Nat) ++ "n" ++ toString (8 - 0 : Nat)) := by
  refine ⟨rfl, rfl, fun h => ?_⟩
  have h1 : scgpm_indexed_mask 8 0 = Except.ok "n8" := rfl
  rw [h1] at h
  exact absurd (Except.ok.inj h) (by decide)

/-- Counterexample to C3 as stated: the row written for a barcode with no i5
index carries a trailing extra comma, so it has five comma-separated fields,
not the claimed exact 4-column shape. -/
theorem sample_sheet_five_field_counterexample :
    create_sample_sheet 1 ["AAAA"] =
      Except.ok (["[Data]", "Lane,Sample_ID,index,index2", "1,AAAA,AAAA,,"],
                 [("AAAA", none)]) ∧
    (pySplitChar ',' "1,AAAA,AAAA,,").length = 5 ∧
    (pySplitChar ',' "1,AAAA,AAAA,,").length ≠ 4 := ⟨rfl, rfl, by decide⟩

/-- Counterexample to C6 as stated: on a filename whose read segment `X2`
does not match `R<digit>`, classification does not merely log and continue —
it aborts (the diagnostic is printed, but `read_index` is never assigned and
formatting the name raises `UnboundLocalError`). -/
theorem read_index_mismatch_counterexample :
    get_scgpm_fastq_name "AAAA_S1_L001_X2_001.fastq.gz" "HFNKGBBXX" "MyLib" 1 =
      (["Could not determine read index: X2"], Except.error Err.nameError) := rfl

/-- Counterexample to C8 as stated: `_count_index_lengths` drains its input —
after the call on `["ACGT"]` the barcode list is empty, not equal to the
input. -/
theorem count_index_lengths_drains_counterexample :
    count_index_lengths ["ACGT"] [] = Except.ok ([], [(4, 0)]) ∧
    ([] : List String) ≠ ["ACGT"] := ⟨rfl, by decide⟩

/-- Counterexample to C10 as stated: on a geometry whose second indexed read
is assigned index length 0, the two variants produce different masks
(`y151,I6n2,n8` vs `y151,I6n2,I0n8`). -/
theorem mask_variants_disagree_counterexample :
    scgpm_get_use_bases_mask [⟨1, 151, "N"⟩, ⟨2, 8, "Y"⟩, ⟨3, 8, "Y"⟩]
        [PyVal.vpair 6 0] = Except.ok "y151,I6n2,n8" ∧
    bylane_get_use_bases_mask [⟨1, 151, "N"⟩, ⟨2, 8, "Y"⟩, ⟨3, 8, "Y"⟩]
        [PyVal.vpair 6 0] = Except.ok "y151,I6n2,I0n8" ∧
    ("y151,I6n2,n8" : String) ≠ "y151,I6n2,I0n8" := ⟨rfl, rfl, by decide⟩

/-- C1 (amended): for an indexed read with cycle count `C` and a positive
assigned index length `L`, the scgpm deriver emits `I<L>` when `C = L` (no
trailing `n0`), `I<L>n<C-L>` when `C > L`, and exits fatally when `C < L`,
never clamping; when `L = 0` the index part of the token is empty, so the
token is `n<C>` for `C > 0` and empty for `C = 0`. -/
theorem scgpm_indexed_mask_token_rules (C L : Nat) :
    (0 < L →
      (C = L → scgpm_indexed_mask C L = Except.ok ("I" ++ toString L)) ∧
      (L < C → scgpm_indexed_mask C L =
        Except.ok ("I" ++ toString L ++ "n" ++ toString (C - L))) ∧
      (C < L → scgpm_indexed_mask C L = Except.error Err.configError)) ∧
    (L = 0 →
      scgpm_indexed_mask C L =
        Except.ok (if 0 < C then "n" ++ toString C else "")) := by
  constructor
  · intro hL
    refine ⟨fun hCL => ?_, fun hLC => ?_, fun hCL => ?_⟩
    · subst hCL
      simp [scgpm_indexed_mask, hL]
    · have h1 : C > L := hLC
      simp [scgpm_indexed_mask, hL, h1]
    · have h1 : ¬C > L := by omega
      simp [scgpm_indexed_mask, h1, hCL]
  · intro hL0
    subst hL0
    by_cases hC : 0 < C
    · have h1 : C > 0 := hC
      simp [scgpm_indexed_mask, h1, hC]
    · have h0 : C = 0 := by omega
      subst h0
      simp [scgpm_indexed_mask]

/-- Witness for C1 at cycle counts 8 and 10 with index length 8, and the
fatal case cycle count 6 with index length 8. -/
theorem scgpm_indexed_mask_token_rules_witness :
    scgpm_indexed_mask 8 8 = Except.ok "I8" ∧
    scgpm_indexed_mask 10 8 = Except.ok "I8n2" ∧
    scgpm_indexed_mask 6 8 = Except.error Err.configError := by
  refine ⟨?_, ?_, ?_⟩
  · exact ((scgpm_indexed_mask_token_rules 8 8).1 (by decide)).1 (by decide)
  · exact ((scgpm_indexed_mask_token_rules 10 8).1 (by decide)).2.1 (by decide)
  · exact ((scgpm_indexed_mask_token_rules 6 8).1 (by decide)).2.2 (by decide)

/-- C8 (amended): `_count_index_lengths` drains its input — the barcode list
is left empty after a successful call (the traversal pops every element from
the end) — while the computed length pairs are exactly those of the original
barcodes, in reverse (pop) order, appended to the accumulator. -/
theorem count_index_lengths_drains (bs : List String) (acc : List (Nat × Nat))
    (h : ∀ b ∈ bs, (pySplitChar '-' b).length ≤ 2) :
    count_index_lengths bs acc = Except.ok ([], acc ++ bs.reverse.map pairOf) :=
  count_index_lengths_ok bs acc h

/-- Witness for C8 on a two-barcode list. -/
theorem count_index_lengths_drains_witness :
    count_index_lengths ["AAAA", "CC-GG"] [] =
      Except.ok ([], [(2, 2), (4, 0)]) := by
  exact count_index_lengths_drains ["AAAA", "CC-GG"] [] (by decide)

/-- C4: for a non-empty list of well-formed barcodes (at most two
`-`-segments each), the index-length computation (`_count_index_lengths`
followed by the uniqueness check of `_get_use_bases_mask`) returns exactly
the one `(i7_length, i5_length)` pair when all barcodes agree on it (absent
i5 counting as length 0), and exits with the inconsistent-index-lengths
error when two barcodes disagree. -/
theorem IndexLengths_consistency (bs : List String) (hne : bs ≠ [])
    (hwf : ∀ b ∈ bs, (pySplitChar '-' b).length ≤ 2) :
    ((∀ b ∈ bs, pairOf b = pairOf (bs.headD "")) →
      IndexLengths bs =
        Except.ok (PyVal.vpair (pairOf (bs.headD "")).1
          (pairOf (bs.headD "")).2)) ∧
    ((∃ b ∈ bs, pairOf b ≠ pairOf (bs.headD "")) →
      IndexLengths bs = Except.error Err.configError) := by
  have hcount := count_index_lengths_ok bs [] hwf
  set L : List PyVal := (bs.reverse.map pairOf).map (fun p => PyVal.vpair p.1 p.2)
    with hLdef
  have hIL : IndexLengths bs = uniqueIndexLengths L := by
    simp [IndexLengths, hcount, hLdef]
  have hfilter : L.filter (fun v => v ≠ PyVal.vnone) = L := by
    rw [List.filter_eq_self]
    intro a ha
    rw [hLdef, List.mem_map] at ha
    obtain ⟨p, _, rfl⟩ := ha
    simp
  have hmemL : ∀ b ∈ bs, PyVal.vpair (pairOf b).1 (pairOf b).2 ∈ L := by
    intro b hb
    rw [hLdef]
    exact List.mem_map_of_mem _ (List.mem_map_of_mem _ (List.mem_reverse.mpr hb))
  have hhead : bs.headD "" ∈ bs := by
    cases bs with
    | nil => exact absurd rfl hne
    | cons x xs => exact List.mem_cons_self x xs
  constructor
  · intro hall
    have hLne : L ≠ [] := by
      intro hLnil
      have := hmemL _ hhead
      rw [hLnil] at this
      exact absurd this (List.not_mem_nil _)
    have hdd : setDedup L = [PyVal.vpair (pairOf (bs.headD "")).1
        (pairOf (bs.headD "")).2] := by
      apply setDedup_all_eq L _ hLne
      intro x hx
      rw [hLdef, List.mem_map] at hx
      obtain ⟨p, hp, rfl⟩ := hx
      rw [List.mem_map] at hp
      obtain ⟨b, hb, rfl⟩ := hp
      rw [hall b (List.mem_reverse.mp hb)]
    rw [hIL, uniqueIndexLengths_eq, hfilter, hdd]
  · rintro ⟨b1, hb1, hne1⟩
    have hv01 : PyVal.vpair (pairOf (bs.headD "")).1 (pairOf (bs.headD "")).2 ≠
        PyVal.vpair (pairOf b1).1 (pairOf b1).2 := by
      intro hv
      apply hne1
      have h2 := PyVal.vpair.inj hv
      exact (Prod.ext_iff.mpr ⟨h2.1.symm, h2.2.symm⟩)
    rw [hIL, uniqueIndexLengths_eq]
    rcases hdd : setDedup (L.filter (fun v => v ≠ PyVal.vnone))
        with _ | ⟨v, _ | ⟨w, t⟩⟩
    · rfl
    · exfalso
      have hm0 : PyVal.vpair (pairOf (bs.headD "")).1 (pairOf (bs.headD "")).2
          ∈ setDedup (L.filter (fun v => v ≠ PyVal.vnone)) := by
        rw [setDedup_mem, hfilter]
        exact hmemL _ hhead
      have hm1 : PyVal.vpair (pairOf b1).1 (pairOf b1).2
          ∈ setDedup (L.filter (fun v => v ≠ PyVal.vnone)) := by
        rw [setDedup_mem, hfilter]
        exact hmemL _ hb1
      rw [hdd] at hm0 hm1
      rw [List.mem_singleton] at hm0 hm1
      exact hv01 (hm0.trans hm1.symm)
    · rfl

/-- Witness for C4: a consistent pair of dual-index barcodes, and an
inconsistent mix of an 8-base and a 6-base i7. -/
theorem IndexLengths_consistency_witness :
    IndexLengths ["AAAAAAAA-CCCCCC", "GGGGGGGG-TTTTTT"] =
      Except.ok (PyVal.vpair 8 6) ∧
    IndexLengths ["AAAAAAAA", "GGGGGG"] = Except.error Err.configError := by
  constructor
  · exact (IndexLengths_consistency ["AAAAAAAA-CCCCCC", "GGGGGGGG-TTTTTT"]
      (by decide) (by decide)).1 (by decide)
  · exact (IndexLengths_consistency ["AAAAAAAA", "GGGGGG"]
      (by decide) (by decide)).2 ⟨"GGGGGG", by decide, by decide⟩

/-- C6 (amended): for every output filename with 5 or 6 `_`-segments whose
read segment does not match `R<digit>`, the classifier prints the
`Could not determine read index` diagnostic and then aborts anyway —
`read_index` is never assigned, so formatting the standardized name raises
`UnboundLocalError` — so this check also ends classification, like the
segment-count check, only via an uncaught exception rather than a clean
exit. -/
theorem read_index_mismatch_reports_and_aborts
    (fastq_path flowcell_id library_name : String) (lane_index : Nat)
    (hlen : (elsOf fastq_path).length = 5 ∨ (elsOf fastq_path).length = 6)
    (hmatch : readIndexMatch (readSegOf (elsOf fastq_path)) = none) :
    get_scgpm_fastq_name fastq_path flowcell_id library_name lane_index =
      (["Could not determine read index: " ++ readSegOf (elsOf fastq_path)],
       Except.error Err.nameError) := by
  have hnot : ¬((elsOf fastq_path).length < 5 ∨ (elsOf fastq_path).length > 6) := by
    rcases hlen with h5 | h6 <;> omega
  rw [get_scgpm_fastq_name, if_neg hnot, hmatch]

/-- Witness for C6 on a 5-segment filename whose read segment is `QX`. -/
theorem read_index_mismatch_reports_and_aborts_witness :
    get_scgpm_fastq_name "CCCC_S2_L002_QX_001.fastq.gz" "HFNKGBBXX" "MyLib" 2 =
      (["Could not determine read index: QX"], Except.error Err.nameError) := by
  exact read_index_mismatch_reports_and_aborts "CCCC_S2_L002_QX_001.fastq.gz"
    "HFNKGBBXX" "MyLib" 2 (Or.inl (by decide)) (by decide)

/-- When the assigned index length is positive the two variants build the
same token (the only textual difference between the functions is the
`index_mask` of a zero index length). -/
theorem indexed_mask_eq_of_pos (C L : Nat) (h : 0 < L) :
    scgpm_indexed_mask C L = bylane_indexed_mask C L := by
  simp [scgpm_indexed_mask, bylane_indexed_mask, h]

/-- The two read-element walks agree whenever every successfully subscripted
index length of an indexed read is positive. -/
theorem mask_walk_eq (v : PyVal) (reads : List ReadElement)
    (h : ∀ r ∈ reads, r.isIndexedRead = "Y" →
      ∀ l, pyIndex v (r.number - 2) = Except.ok l → 0 < l) :
    ∀ d, scgpm_mask_walk v reads d = bylane_mask_walk v reads d := by
  induction reads with
  | nil => intro d; rfl
  | cons r rest ih =>
    intro d
    have hrest : ∀ x ∈ rest, x.isIndexedRead = "Y" →
        ∀ l, pyIndex v (x.number - 2) = Except.ok l → 0 < l :=
      fun x hx => h x (List.mem_cons_of_mem r hx)
    by_cases hY : r.isIndexedRead = "Y"
    · rw [scgpm_mask_walk, bylane_mask_walk, if_pos hY, if_pos hY]
      cases hpi : pyIndex v (r.number - 2) with
      | error e => rfl
      | ok l =>
        have hpos := h r (List.mem_cons_self r rest) hY l hpi
        dsimp only
        rw [indexed_mask_eq_of_pos r.numCycles l hpos]
        cases bylane_indexed_mask r.numCycles l with
        | error e => rfl
        | ok tok => exact ih hrest (dictInsert d r.number tok)
    · by_cases hN : r.isIndexedRead = "N"
      · rw [scgpm_mask_walk, bylane_mask_walk, if_neg hY, if_neg hY,
          if_pos hN, if_pos hN]
        exact ih hrest (dictInsert d r.number ("y" ++ toString r.numCycles))
      · rw [scgpm_mask_walk, bylane_mask_walk, if_neg hY, if_neg hY,
          if_neg hN, if_neg hN]
        exact ih hrest d

/-- C10 (amended): the two script variants compute the same bases mask
whenever every indexed read of the geometry is assigned a positive index
length; they differ exactly on indexed reads assigned length 0, where the
scgpm variant emits an empty index part and the by-lane variant emits `I0`. -/
theorem mask_variants_agree_when_positive (reads : List ReadElement)
    (index_lengths_list : List PyVal)
    (h : allIndexLengthsPositive reads index_lengths_list = true) :
    scgpm_get_use_bases_mask reads index_lengths_list =
      bylane_get_use_bases_mask reads index_lengths_list := by
  unfold scgpm_get_use_bases_mask bylane_get_use_bases_mask
  cases hu : uniqueIndexLengths index_lengths_list with
  | error e => rfl
  | ok v =>
    have hpos : ∀ r ∈ reads, r.isIndexedRead = "Y" →
        ∀ l, pyIndex v (r.number - 2) = Except.ok l → 0 < l := by
      intro r hr hY l hl
      unfold allIndexLengthsPositive at h
      rw [hu] at h
      have h2 := List.all_eq_true.mp h r hr
      rw [if_pos hY, hl] at h2
      exact of_decide_eq_true h2
    dsimp only
    rw [mask_walk_eq v reads hpos []]

/-- Witness for C10 on a dual-index geometry with 8-base index lengths. -/
theorem mask_variants_agree_when_positive_witness :
    allIndexLengthsPositive [⟨1, 151, "N"⟩, ⟨2, 8, "Y"⟩, ⟨3, 8, "Y"⟩]
        [PyVal.vpair 8 8] = true ∧
    scgpm_get_use_bases_mask [⟨1, 151, "N"⟩, ⟨2, 8, "Y"⟩, ⟨3, 8, "Y"⟩]
        [PyVal.vpair 8 8] =
      bylane_get_use_bases_mask [⟨1, 151, "N"⟩, ⟨2, 8, "Y"⟩, ⟨3, 8, "Y"⟩]
        [PyVal.vpair 8 8] :=
  ⟨by decide, mask_variants_agree_when_positive _ _ (by decide)⟩

/-- Processing one well-formed barcode line always succeeds and appends
exactly the row `rowOf` describes, regardless of the incoming loop state. -/
theorem sheetLine_wf (lane_index : Nat) (st : SheetState) (line : String)
    (h : wfLineB line = true) :
    ∃ st2, sheetLine lane_index st line = Except.ok st2 ∧
      st2.rows = st.rows ++ [rowOf lane_index line] := by
  simp only [wfLineB, Bool.and_eq_true, Bool.or_eq_true, beq_iff_eq,
    decide_eq_true_eq] at h
  obtain ⟨h12, hseg⟩ := h
  rcases h12 with h1 | h2
  · obtain ⟨e0, hes⟩ := List.length_eq_one.mp h1
    rw [hes] at hseg
    simp only [List.headD_cons] at hseg
    have hpos : 0 < (pySplitChar '-' (pyUpper e0)).length :=
      List.length_pos.mpr (pySplitChar_ne_nil '-' (pyUpper e0))
    have h1or2 : (pySplitChar '-' (pyUpper e0)).length = 1 ∨
        (pySplitChar '-' (pyUpper e0)).length = 2 := by omega
    rcases h1or2 with hi1 | hi2
    · obtain ⟨i0, hidx⟩ := List.length_eq_one.mp hi1
      exact ⟨{ rows := st.rows ++ [rowOf lane_index line],
               dict := dictUpsert st.dict (pyUpper e0) none,
               sample_id := PyStr.str (pyUpper e0), i5 := PyStr.pynone },
             by simp [sheetLine, rowOf, hes, hidx], rfl⟩
    · obtain ⟨i0, i1, hidx⟩ := List.length_eq_two.mp hi2
      by_cases hie : i1 = ""
      · exact ⟨{ rows := st.rows ++ [rowOf lane_index line],
                 dict := dictUpsert st.dict (pyUpper e0) none,
                 sample_id := PyStr.str (pyUpper e0), i5 := PyStr.str i1 },
               by simp [sheetLine, rowOf, hes, hidx, hie], rfl⟩
      · exact ⟨{ rows := st.rows ++ [rowOf lane_index line],
                 dict := dictUpsert st.dict (pyUpper e0) none,
                 sample_id := PyStr.str (pyUpper e0), i5 := PyStr.str i1 },
               by simp [sheetLine, rowOf, hes, hidx, hie], rfl⟩
  · obtain ⟨e0, e1, hes⟩ := List.length_eq_two.mp h2
    rw [hes] at hseg
    simp only [List.headD_cons] at hseg
    have hpos : 0 < (pySplitChar '-' (pyUpper e0)).length :=
      List.length_pos.mpr (pySplitChar_ne_nil '-' (pyUpper e0))
    have h1or2 : (pySplitChar '-' (pyUpper e0)).length = 1 ∨
        (pySplitChar '-' (pyUpper e0)).length = 2 := by omega
    rcases h1or2 with hi1 | hi2
    · obtain ⟨i0, hidx⟩ := List.length_eq_one.mp hi1
      exact ⟨{ rows := st.rows ++ [rowOf lane_index line],
               dict := dictUpsert st.dict (pyUpper e0) (some e1),
               sample_id := PyStr.str e1, i5 := PyStr.pynone },
             by simp [sheetLine, rowOf, hes, hidx], rfl⟩
    · obtain ⟨i0, i1, hidx⟩ := List.length_eq_two.mp hi2
      by_cases hie : i1 = ""
      · exact ⟨{ rows := st.rows ++ [rowOf lane_index line],
                 dict := dictUpsert st.dict (pyUpper e0) (some e1),
                 sample_id := PyStr.str e1, i5 := PyStr.str i1 },
               by simp [sheetLine, rowOf, hes, hidx, hie], rfl⟩
      · exact ⟨{ rows := st.rows ++ [rowOf lane_index line],
                 dict := dictUpsert st.dict (pyUpper e0) (some e1),
                 sample_id := PyStr.str e1, i5 := PyStr.str i1 },
               by simp [sheetLine, rowOf, hes, hidx, hie], rfl⟩

/-- The barcode-file loop on well-formed lines succeeds and appends one row
per line, in input order. -/
theorem sheetFold_wf (lane_index : Nat) (ls : List String) :
    ∀ st : SheetState, (∀ l ∈ ls, wfLineB l = true) →
      ∃ st2, sheetFold lane_index ls st = Except.ok st2 ∧
        st2.rows = st.rows ++ ls.map (rowOf lane_index) := by
  induction ls with
  | nil => exact fun st _ => ⟨st, rfl, by simp⟩
  | cons l rest ih =>
    intro st h
    obtain ⟨st1, hst1, hr1⟩ := sheetLine_wf lane_index st l
      (h l (List.mem_cons_self l rest))
    obtain ⟨st2, hst2, hr2⟩ := ih st1 (fun x hx => h x (List.mem_cons_of_mem l hx))
    refine ⟨st2, ?_, ?_⟩
    · rw [sheetFold, hst1]
      exact hst2
    · rw [hr2, hr1]
      simp

/-- C3 (amended): on well-formed input lines the sheet is exactly the two
fixed header lines followed by one CSV line per barcode in input order; rows
for barcodes with a non-empty i5 have the shape `lane,sample_id,i7,i5`, and
rows for barcodes without i5 leave the i5 field empty and carry a trailing
extra comma (five comma-separated fields, not four). -/
theorem create_sample_sheet_shape (lane_index : Nat) (ls : List String)
    (h : ∀ l ∈ ls, wfLineB l = true) :
    ∃ d, create_sample_sheet lane_index ls =
      Except.ok (["[Data]", "Lane,Sample_ID,index,index2"] ++
        ls.map (rowOf lane_index), d) := by
  obtain ⟨st2, hst2, hr⟩ := sheetFold_wf lane_index ls
    { rows := ["[Data]", "Lane,Sample_ID,index,index2"], dict := [],
      sample_id := PyStr.unbound, i5 := PyStr.unbound } h
  refine ⟨st2.dict, ?_⟩
  rw [create_sample_sheet, hst2, ← hr]

/-- Witness for C3 on a dual-index line with a sample id and a bare
single-index line. -/
theorem create_sample_sheet_shape_witness :
    (∀ l ∈ ["AAAA-CCCC SampleA", "GGGG"], wfLineB l = true) ∧
    ∃ d, create_sample_sheet 1 ["AAAA-CCCC SampleA", "GGGG"] =
      Except.ok (["[Data]", "Lane,Sample_ID,index,index2",
                  "1,SampleA,AAAA,CCCC", "1,GGGG,GGGG,,"], d) :=
  ⟨by decide, create_sample_sheet_shape 1 ["AAAA-CCCC SampleA", "GGGG"] (by decide)⟩
